import Mathlib

/-!
Shallow embedding of the broker engine (`src/broker_engine.py`) of the
fix-engine repository, together with theorems settling the specification
claims about it.

Modelling conventions:
* FIX field values are modelled with their wire types: message-type codes as
  strings, one-character codes (`OrdStatus`, `ExecType`, `Side`, `OrdType`)
  as `Char`, quantities and prices (Python `float`) as `Rat`.
* Wall-clock time is modelled as a natural number of UTC seconds; the
  `time.sleep(1)` in the handler advances the clock by one, and
  `int(time.time())` at an instant is that clock value.  `SendingTime` and
  `TransactTime` are modelled by this numeric timestamp.
* The Python order-book `dict` is modelled as an insertion-ordered
  association list with in-place overwrite on assignment.
* `quickfix` field access (`message.getField`) raising `FieldNotFound` is
  modelled by `Option` fields on the inbound message together with an
  `Except` returning extraction function; the exception's text is modelled
  by the missing field's name.
-/

namespace BrokerEngine

/-- FIX message-type code for `NewOrderSingle` (`fix.MsgType_NewOrderSingle`). -/
def MsgType_NewOrderSingle : String := "D"

/-- FIX message-type code for `ExecutionReport` (`fix.MsgType_ExecutionReport`). -/
def MsgType_ExecutionReport : String := "8"

/-- FIX message-type code for `BusinessMessageReject`. -/
def MsgType_BusinessMessageReject : String := "j"

/-- FIX `OrdStatus` code for a new order (`fix.OrdStatus_NEW`). -/
def OrdStatus_NEW : Char := '0'

/-- FIX `OrdStatus` code for a part-filled order (`fix.OrdStatus_PARTIALLY_FILLED`). -/
def OrdStatus_PartFilled : Char := '1'

/-- FIX `OrdStatus` code for a filled order (`fix.OrdStatus_FILLED`). -/
def OrdStatus_FILLED : Char := '2'

/-- FIX `OrdStatus` code for done-for-day (`fix.OrdStatus_DONE_FOR_DAY`). -/
def OrdStatus_DoneForDay : Char := '3'

/-- FIX `OrdStatus` code for a canceled order (`fix.OrdStatus_CANCELED`). -/
def OrdStatus_CANCELED : Char := '4'

/-- FIX `OrdStatus` code for a rejected order (`fix.OrdStatus_REJECTED`). -/
def OrdStatus_REJECTED : Char := '8'

/-- FIX `ExecType` code for a new-order report (`fix.ExecType_NEW`). -/
def ExecType_NEW : Char := '0'

/-- FIX `ExecType` code for a trade report (`fix.ExecType_TRADE`). -/
def ExecType_TRADE : Char := 'F'

/-- FIX `BusinessRejectReason` value `Other` (`fix.BusinessRejectReason_OTHER`). -/
def BusinessRejectReason_OTHER : Nat := 0

/-- An inbound application message as the handler sees it: the header's
message type and the body fields the engine reads.  A field the sender did
not set is `none` (reading it raises `FieldNotFound` in the source). -/
structure InboundMessage where
  msg_type : String
  cl_ord_id : Option String
  symbol : Option String
  side : Option Char
  ord_type : Option Char
  price : Option Rat
  order_qty : Option Rat
deriving DecidableEq, Repr

/-- The field values extracted by lines 62-67 of `handle_new_order_single`
once every required `getField` has succeeded. -/
structure NewOrderFields where
  cl_ord_id : String
  symbol : String
  side : Char
  ord_type : Char
  price : Option Rat
  order_qty : Rat
deriving DecidableEq, Repr

/-- `message.getField` for a required field: the value, or the
`FieldNotFound` exception text (modelled by the field's name). -/
def getField {α : Type} (v : Option α) (name : String) : Except String α :=
  match v with
  | some x => Except.ok x
  | none => Except.error name

/-- Lines 62-67 of `handle_new_order_single`: read `ClOrdID`, `Symbol`,
`Side`, `OrdType`, the optional `Price`, and `OrderQty`, in source order;
the first missing required field aborts with its `FieldNotFound` text. -/
def read_new_order_fields (m : InboundMessage) : Except String NewOrderFields := do
  let cl ← getField m.cl_ord_id "ClOrdID"
  let sym ← getField m.symbol "Symbol"
  let sd ← getField m.side "Side"
  let ot ← getField m.ord_type "OrdType"
  let px := m.price
  let qty ← getField m.order_qty "OrderQty"
  return ⟨cl, sym, sd, ot, px, qty⟩

/-- One record of the in-memory `order_book` dict (lines 70-77). -/
structure OrderRecord where
  symbol : String
  side : Char
  ord_type : Char
  price : Option Rat
  order_qty : Rat
  status : String
deriving DecidableEq, Repr

/-- The `order_book`: a Python dict from `ClOrdID` to order record, as an
insertion-ordered association list. -/
abbrev Book := List (String × OrderRecord)

/-- Dict assignment `book[k] = v`: overwrite in place, else append. -/
def Book.set : Book → String → OrderRecord → Book
  | [], k, v => [(k, v)]
  | (k', v') :: rest, k, v =>
      if k' = k then (k, v) :: rest else (k', v') :: Book.set rest k v

/-- Dict lookup `book.get(k)`. -/
def Book.lookup : Book → String → Option OrderRecord
  | [], _ => none
  | (k', v) :: rest, k => if k' = k then some v else Book.lookup rest k

/-- The in-place mutation `book[k]['status'] = st` (line 95).  (On a missing
key the source would raise; the engine only does this right after storing
the record, so the key is always present.) -/
def Book.setStatus : Book → String → String → Book
  | [], _, _ => []
  | (k', v) :: rest, k, st =>
      if k' = k then (k', { v with status := st }) :: rest
      else (k', v) :: Book.setStatus rest k st

/-- Python truthiness of the optional `price` float: `None` and `0.0` are
falsy. -/
def pyTruthy (p : Option Rat) : Bool :=
  match p with
  | some v => v ≠ 0
  | none => false

/-- Line 123: `ExecID = f"{cl_ord_id}-{int(time.time())}"`. -/
def execIdOf (cl_ord_id : String) (t : Nat) : String :=
  cl_ord_id ++ "-" ++ toString t

/-- An outbound `ExecutionReport` with every field `send_execution_report`
sets (lines 116-134). -/
structure ExecutionReport where
  msg_type : String
  sending_time : Nat
  order_id : String
  cl_ord_id : String
  exec_id : String
  ord_status : Char
  exec_type : Char
  symbol : String
  side : Char
  order_qty : Rat
  cum_qty : Rat
  avg_px : Rat
  leaves_qty : Rat
  transact_time : Nat
  price : Option Rat
deriving DecidableEq, Repr

/-- An outbound `BusinessMessageReject` with the fields `send_reject` sets
(lines 145-149). -/
structure RejectMessage where
  msg_type : String
  ref_msg_type : String
  business_reject_reason : Nat
  text : String
deriving DecidableEq, Repr

/-- A message handed to `fix.Session.sendToTarget`. -/
inductive OutboundMessage where
  | execReport (r : ExecutionReport)
  | reject (r : RejectMessage)
deriving DecidableEq, Repr

/-- `send_execution_report` (lines 113-137) invoked at clock `t`: builds the
report from its arguments.  `CumQty` is `order_qty` when the status is
`FILLED`, else `0`; `AvgPx` is `price if price else 0`; `LeavesQty` is `0`
when `FILLED`, else `order_qty`; `Price` is set only when `price` is truthy;
`OrderID` is set to `cl_ord_id` (the source's "Simplified" comment). -/
def send_execution_report (t : Nat) (cl_ord_id symbol : String) (side : Char)
    (order_qty : Rat) (price : Option Rat) (ord_status exec_type : Char) :
    ExecutionReport :=
  { msg_type := MsgType_ExecutionReport
    sending_time := t
    order_id := cl_ord_id
    cl_ord_id := cl_ord_id
    exec_id := execIdOf cl_ord_id t
    ord_status := ord_status
    exec_type := exec_type
    symbol := symbol
    side := side
    order_qty := order_qty
    cum_qty := if ord_status = OrdStatus_FILLED then order_qty else 0
    avg_px := if pyTruthy price then price.getD 0 else 0
    leaves_qty := if ord_status = OrdStatus_FILLED then 0 else order_qty
    transact_time := t
    price := if pyTruthy price then price else none }

/-- `send_reject` (lines 142-153): a `BusinessMessageReject` echoing the
original message's type, with reason category `Other` and the reason text. -/
def send_reject (original : InboundMessage) (reason : String) : RejectMessage :=
  { msg_type := MsgType_BusinessMessageReject
    ref_msg_type := original.msg_type
    business_reject_reason := BusinessRejectReason_OTHER
    text := reason }

/-- The result of one handler invocation: the order book on return, the
outbound messages sent (in send order), the clock on return (the handler
sleeps one second on the accepted path), and the successive order-book
states observed during the handling (after each mutation). -/
structure HandleResult where
  book : Book
  outputs : List OutboundMessage
  clock : Nat
  observed : List Book
deriving Repr

/-- `handle_new_order_single` (lines 59-111) invoked at clock `t`: read the
fields; on success store the order with status `NEW`, send the `New` report,
sleep one second, set the status to `FILLED`, and send the `Filled` report;
on `FieldNotFound` send one reject carrying the exception text. -/
def handle_new_order_single (t : Nat) (book : Book) (m : InboundMessage) :
    HandleResult :=
  match read_new_order_fields m with
  | Except.error reason =>
      { book := book
        outputs := [OutboundMessage.reject (send_reject m reason)]
        clock := t
        observed := [] }
  | Except.ok f =>
      let book1 := book.set f.cl_ord_id
        { symbol := f.symbol, side := f.side, ord_type := f.ord_type,
          price := f.price, order_qty := f.order_qty, status := "NEW" }
      let rptNew := send_execution_report t f.cl_ord_id f.symbol f.side
        f.order_qty f.price OrdStatus_NEW ExecType_NEW
      let book2 := book1.setStatus f.cl_ord_id "FILLED"
      let rptFill := send_execution_report (t + 1) f.cl_ord_id f.symbol f.side
        f.order_qty f.price OrdStatus_FILLED ExecType_TRADE
      { book := book2
        outputs := [OutboundMessage.execReport rptNew,
                    OutboundMessage.execReport rptFill]
        clock := t + 1
        observed := [book1, book2] }

/-- The handlers `process_message` can dispatch to. -/
inductive Handler where
  | newOrderSingle
deriving DecidableEq, Repr

/-- Which handler `process_message` (lines 52-57) dispatches a message to:
only `NewOrderSingle` is dispatched; every other type falls through the
lone `if` with no `else`. -/
def routeTarget (m : InboundMessage) : Option Handler :=
  if m.msg_type = MsgType_NewOrderSingle then some Handler.newOrderSingle
  else none

/-- `process_message` (lines 52-57) invoked at clock `t`: dispatch a
`NewOrderSingle` to its handler; do nothing for any other type. -/
def process_message (t : Nat) (book : Book) (m : InboundMessage) :
    HandleResult :=
  if m.msg_type = MsgType_NewOrderSingle then handle_new_order_single t book m
  else { book := book, outputs := [], clock := t, observed := [] }

/-- An inbound message together with its arrival time at the engine. -/
structure TimedMessage where
  arrival : Nat
  msg : InboundMessage
deriving Repr

/-- The cumulative result of processing a message sequence. -/
structure TraceResult where
  book : Book
  outputs : List OutboundMessage
  observed : List Book
  clock : Nat
deriving Repr

/-- The engine's session thread: messages are processed one after another
(the `fromApp` callback runs on the acceptor's single dispatch thread, and
`handle_new_order_single` blocks it, `time.sleep`, until it returns), each
handling starting at the later of the previous handling's end and the
message's arrival. -/
def runTrace (clock : Nat) (book : Book) : List TimedMessage → TraceResult
  | [] => { book := book, outputs := [], observed := [], clock := clock }
  | tm :: rest =>
      let start := max clock tm.arrival
      let r := process_message start book tm.msg
      let r' := runTrace r.clock r.book rest
      { book := r'.book
        outputs := r.outputs ++ r'.outputs
        observed := r.observed ++ r'.observed
        clock := r'.clock }

/-- The execution reports among a list of outbound messages. -/
def execReports (l : List OutboundMessage) : List ExecutionReport :=
  l.filterMap fun o =>
    match o with
    | OutboundMessage.execReport r => some r
    | OutboundMessage.reject _ => none

/-- The reject messages among a list of outbound messages. -/
def rejectsOf (l : List OutboundMessage) : List RejectMessage :=
  l.filterMap fun o =>
    match o with
    | OutboundMessage.execReport _ => none
    | OutboundMessage.reject r => some r

/-- Scenario A of the spec: a valid Limit buy, `ORDER_1`, 100 at 150. -/
def msgLimitA : InboundMessage :=
  { msg_type := MsgType_NewOrderSingle, cl_ord_id := some "ORDER_1",
    symbol := some "ABC", side := some '1', ord_type := some '2',
    price := some 150, order_qty := some 100 }

/-- Scenario C of the spec: a valid Market buy, `ORDER_2`, qty 50, no price. -/
def msgMarketC : InboundMessage :=
  { msg_type := MsgType_NewOrderSingle, cl_ord_id := some "ORDER_2",
    symbol := some "XYZ", side := some '1', ord_type := some '1',
    price := none, order_qty := some 50 }

/-- A Limit order with `order_qty = 0`: malformed under the spec's
validation rules (non-positive quantity), but missing no field. -/
def msgQtyZero : InboundMessage :=
  { msg_type := MsgType_NewOrderSingle, cl_ord_id := some "ORDER_3",
    symbol := some "ABC", side := some '1', ord_type := some '2',
    price := some 150, order_qty := some 0 }

/-- Scenario B of the spec: the Scenario A request without `order_qty`. -/
def msgNoQty : InboundMessage :=
  { msg_type := MsgType_NewOrderSingle, cl_ord_id := some "ORDER_1",
    symbol := some "ABC", side := some '1', ord_type := some '2',
    price := some 150, order_qty := none }

/-- An inbound application message whose business type is not
`NewOrderSingle`: an `OrderCancelRequest` (FIX type `F`). -/
def msgCancel : InboundMessage :=
  { msg_type := "F", cl_ord_id := some "ORDER_1", symbol := some "ABC",
    side := some '1', ord_type := none, price := none, order_qty := none }

/-- The report shape the spec requires for one order, as the list of its
reports' `OrdStatus` codes: `New`, then zero or more partial fills, then
exactly one terminal report among filled, canceled and rejected. -/
def lifecyclePattern (l : List Char) : Prop :=
  ∃ n last,
    (last = OrdStatus_FILLED ∨ last = OrdStatus_CANCELED ∨ last = OrdStatus_REJECTED) ∧
    l = OrdStatus_NEW :: (List.replicate n OrdStatus_PartFilled ++ [last])

/-! Helper lemmas: decimal rendering of `Nat` (for `exec_id` reasoning),
order-book lookup, and a transfer principle for properties of every
execution report an engine run emits. -/

lemma digitChar_inj_lt : ∀ a, a < 10 → ∀ b, b < 10 →
    Nat.digitChar a = Nat.digitChar b → a = b := by
  decide

lemma digitChar_ne_dash : ∀ a, a < 10 → Nat.digitChar a ≠ '-' := by decide

lemma toDigitsCore_eq_digits (fuel : Nat) : ∀ (n : Nat) (ds : List Char), 0 < n → n < fuel →
    Nat.toDigitsCore 10 fuel n ds = ((Nat.digits 10 n).map Nat.digitChar).reverse ++ ds := by
  induction fuel with
  | zero => intro n ds hn hf; omega
  | succ f ih =>
    intro n ds hn hf
    rw [Nat.digits_def' (by norm_num : (1:Nat) < 10) hn]
    simp only [Nat.toDigitsCore]
    by_cases h : n / 10 = 0
    · rw [if_pos h, h, Nat.digits_zero]
      simp
    · rw [if_neg h]
      have hlt : n / 10 < f := by
        have h1 : n / 10 < n := Nat.div_lt_self hn (by norm_num)
        omega
      rw [ih (n / 10) _ (Nat.pos_of_ne_zero h) hlt]
      simp

lemma toDigits_eq_digits (n : Nat) (hn : 0 < n) :
    Nat.toDigits 10 n = ((Nat.digits 10 n).map Nat.digitChar).reverse := by
  have h := toDigitsCore_eq_digits (n + 1) n [] hn (Nat.lt_succ_self n)
  simpa [Nat.toDigits] using h

lemma toDigits_zero10 : Nat.toDigits 10 0 = ['0'] := by decide

lemma map_digitChar_inj : ∀ (l1 l2 : List Nat), (∀ x ∈ l1, x < 10) → (∀ x ∈ l2, x < 10) →
    l1.map Nat.digitChar = l2.map Nat.digitChar → l1 = l2 := by
  intro l1
  induction l1 with
  | nil => intro l2 _ _ h; cases l2 <;> simp_all
  | cons a l ih =>
    intro l2 h1 h2 h
    cases l2 with
    | nil => simp_all
    | cons b l2' =>
      simp only [List.map_cons, List.cons.injEq] at h
      have ha : a = b := digitChar_inj_lt a (h1 a (by simp)) b (h2 b (by simp)) h.1
      have := ih l2' (fun x hx => h1 x (by simp [hx])) (fun x hx => h2 x (by simp [hx])) h.2
      simp [ha, this]

lemma repr_data (n : Nat) : (Nat.repr n).data = Nat.toDigits 10 n := rfl

lemma digits_map_ne_singleton_zero (n : Nat) (hn : 0 < n) :
    (Nat.digits 10 n).map Nat.digitChar ≠ ['0'] := by
  intro h
  cases hd : Nat.digits 10 n with
  | nil => rw [hd] at h; simp at h
  | cons d tl =>
    rw [hd] at h
    simp only [List.map_cons, List.cons.injEq] at h
    have hdlt : d < 10 := Nat.digits_lt_base (by norm_num) (by rw [hd]; simp)
    have hd0 : d = 0 := digitChar_inj_lt d hdlt 0 (by norm_num) (by simpa using h.1)
    have htl : tl = [] := by simpa using h.2
    have : n = 0 := by
      have := Nat.ofDigits_digits 10 n
      rw [hd, hd0, htl] at this
      simpa [Nat.ofDigits] using this.symm
    omega

lemma nat_repr_injective : Function.Injective Nat.repr := by
  intro m n h
  have h' : Nat.toDigits 10 m = Nat.toDigits 10 n := by
    rw [← repr_data, ← repr_data, h]
  rcases Nat.eq_zero_or_pos m with hm | hm <;> rcases Nat.eq_zero_or_pos n with hn | hn
  · omega
  · exfalso
    rw [hm, toDigits_zero10, toDigits_eq_digits n hn] at h'
    have : (Nat.digits 10 n).map Nat.digitChar = ['0'] := by
      have := congrArg List.reverse h'
      simpa using this.symm
    exact digits_map_ne_singleton_zero n hn this
  · exfalso
    rw [hn, toDigits_zero10, toDigits_eq_digits m hm] at h'
    have : (Nat.digits 10 m).map Nat.digitChar = ['0'] := by
      have := congrArg List.reverse h'
      simpa using this
    exact digits_map_ne_singleton_zero m hm this
  · rw [toDigits_eq_digits m hm, toDigits_eq_digits n hn] at h'
    have hmap : (Nat.digits 10 m).map Nat.digitChar = (Nat.digits 10 n).map Nat.digitChar :=
      List.reverse_injective h'
    have hdig : Nat.digits 10 m = Nat.digits 10 n :=
      map_digitChar_inj _ _ (fun x hx => Nat.digits_lt_base (by norm_num) hx)
        (fun x hx => Nat.digits_lt_base (by norm_num) hx) hmap
    calc m = Nat.ofDigits 10 (Nat.digits 10 m) := (Nat.ofDigits_digits 10 m).symm
    _ = Nat.ofDigits 10 (Nat.digits 10 n) := by rw [hdig]
    _ = n := Nat.ofDigits_digits 10 n

lemma dash_not_mem_repr (n : Nat) : '-' ∉ (Nat.repr n).data := by
  rw [repr_data]
  rcases Nat.eq_zero_or_pos n with hn | hn
  · rw [hn, toDigits_zero10]; decide
  · rw [toDigits_eq_digits n hn]
    intro hmem
    simp only [List.mem_reverse, List.mem_map] at hmem
    obtain ⟨d, hd, hdc⟩ := hmem
    exact digitChar_ne_dash d (Nat.digits_lt_base (by norm_num) hd) hdc

lemma append_dash_inj : ∀ (A B A' B' : List Char), '-' ∉ B → '-' ∉ B' →
    A ++ '-' :: B = A' ++ '-' :: B' → A = A' ∧ B = B' := by
  intro A
  induction A with
  | nil =>
    intro B A' B' hB hB' h
    cases A' with
    | nil => simpa using h
    | cons a' A'' =>
      exfalso
      simp only [List.nil_append, List.cons_append, List.cons.injEq] at h
      apply hB
      rw [h.2]
      exact List.mem_append_right A'' (List.mem_cons_self _ _)
  | cons a A0 ih =>
    intro B A' B' hB hB' h
    cases A' with
    | nil =>
      exfalso
      simp only [List.cons_append, List.nil_append, List.cons.injEq] at h
      apply hB'
      rw [← h.2]
      exact List.mem_append_right A0 (List.mem_cons_self _ _)
    | cons a' A1 =>
      simp only [List.cons_append, List.cons.injEq] at h
      have := ih B A1 B' hB hB' h.2
      exact ⟨by rw [h.1, this.1], this.2⟩

lemma string_data_inj {s t : String} (h : s.data = t.data) : s = t := by
  cases s; cases t; exact congrArg String.mk (by simpa using h)

lemma toString_nat (t : Nat) : (toString t : String) = Nat.repr t := rfl

lemma execIdOf_inj (cl cl' : String) (t t' : Nat) (h : execIdOf cl t = execIdOf cl' t') :
    cl = cl' ∧ t = t' := by
  have hd : cl.data ++ '-' :: (Nat.repr t).data = cl'.data ++ '-' :: (Nat.repr t').data := by
    have h2 := congrArg String.data h
    simp only [execIdOf, String.data_append, toString_nat] at h2
    simpa [List.append_assoc] using h2
  have h3 := append_dash_inj cl.data (Nat.repr t).data cl'.data (Nat.repr t').data
    (dash_not_mem_repr t) (dash_not_mem_repr t') hd
  exact ⟨string_data_inj h3.1, nat_repr_injective (string_data_inj h3.2)⟩

lemma Book.lookup_set (b : Book) (k : String) (v : OrderRecord) :
    (b.set k v).lookup k = some v := by
  induction b with
  | nil => simp [Book.set, Book.lookup]
  | cons kv rest ih =>
    obtain ⟨k', v'⟩ := kv
    by_cases h : k' = k
    · simp [Book.set, h, Book.lookup]
    · simp [Book.set, h, Book.lookup, ih]

lemma Book.lookup_setStatus (b : Book) (k st : String) :
    (b.setStatus k st).lookup k = (b.lookup k).map (fun r => { r with status := st }) := by
  induction b with
  | nil => simp [Book.setStatus, Book.lookup]
  | cons kv rest ih =>
    obtain ⟨k', v'⟩ := kv
    by_cases h : k' = k
    · simp [Book.setStatus, h, Book.lookup]
    · simp [Book.setStatus, h, Book.lookup, ih]

/-- Transfer principle: a property holding of every report
`send_execution_report` can build on the accepted path (the `New` shape and
the `Filled` shape) holds of every execution report an engine run emits. -/
lemma execReport_of_runTrace (P : ExecutionReport → Prop)
    (hP : ∀ t cl sym sd qty px,
      P (send_execution_report t cl sym sd qty px OrdStatus_NEW ExecType_NEW) ∧
      P (send_execution_report t cl sym sd qty px OrdStatus_FILLED ExecType_TRADE)) :
    ∀ (msgs : List TimedMessage) (clock : Nat) (book : Book) (r : ExecutionReport),
      r ∈ execReports (runTrace clock book msgs).outputs → P r := by
  intro msgs
  induction msgs with
  | nil =>
    intro clock book r h
    simp [runTrace, execReports] at h
  | cons tm rest ih =>
    intro clock book r h
    simp only [runTrace, execReports, List.filterMap_append, List.mem_append] at h
    rcases h with h | h
    · by_cases hm : tm.msg.msg_type = MsgType_NewOrderSingle
      · rw [process_message, if_pos hm] at h
        cases hf : read_new_order_fields tm.msg with
        | error reason =>
          rw [handle_new_order_single, hf] at h
          simp at h
        | ok f =>
          rw [handle_new_order_single, hf] at h
          simp at h
          rcases h with h | h
          · exact h ▸ (hP _ _ _ _ _ _).1
          · exact h ▸ (hP _ _ _ _ _ _).2
      · rw [process_message, if_neg hm] at h
        simp at h
    · exact ih _ _ r (by simpa [execReports] using h)

/-- Claim C1: for every execution report the engine produces, the reported
cumulative quantity plus the reported leaves quantity equals the order
quantity (`0 + order_qty` on a `New` report, `order_qty + 0` on a `Filled`
report). -/
theorem claim_C1_cum_plus_leaves (clock : Nat) (book : Book)
    (msgs : List TimedMessage) (r : ExecutionReport)
    (h : r ∈ execReports (runTrace clock book msgs).outputs) :
    r.cum_qty + r.leaves_qty = r.order_qty := by
  refine execReport_of_runTrace (fun r => r.cum_qty + r.leaves_qty = r.order_qty)
    ?_ msgs clock book r h
  intro t cl sym sd qty px
  constructor <;> simp [send_execution_report, OrdStatus_NEW, OrdStatus_FILLED]

/-- Witness for C1: the `New` report for Scenario A, emitted by a concrete
one-message run, satisfies `cum_qty + leaves_qty = order_qty`. -/
theorem claim_C1_witness :
    (send_execution_report 10 "ORDER_1" "ABC" '1' 100 (some 150)
        OrdStatus_NEW ExecType_NEW).cum_qty
      + (send_execution_report 10 "ORDER_1" "ABC" '1' 100 (some 150)
        OrdStatus_NEW ExecType_NEW).leaves_qty
      = (send_execution_report 10 "ORDER_1" "ABC" '1' 100 (some 150)
        OrdStatus_NEW ExecType_NEW).order_qty :=
  claim_C1_cum_plus_leaves 10 [] [⟨10, msgLimitA⟩] _ (by decide)

/-- Claim C2 counterexample: the claim is false for the malformed request
`msgQtyZero` (non-positive `order_qty = 0`, one of the claim's three
malformed shapes): the engine creates an Order record for it (and even
fills it) and emits no reject at all. -/
theorem claim_C2_counterexample :
    msgQtyZero.order_qty = some 0 ∧
    (process_message 0 [] msgQtyZero).book.lookup "ORDER_3" =
      some { symbol := "ABC", side := '1', ord_type := '2', price := some 150,
             order_qty := 0, status := "FILLED" } ∧
    rejectsOf (process_message 0 [] msgQtyZero).outputs = [] := by
  refine ⟨rfl, ?_, rfl⟩
  rfl

/-- Claim C2 as amended: only a missing required field is rejected.  For
every new-order request missing one of `{client_order_id, symbol, side,
order_type, order_qty}`, no Order record is created (the book is returned
unchanged, with no intermediate state observed) and exactly one reject is
emitted, echoing the original message type and carrying the reason text;
but requests with non-positive `order_qty`, and Limit orders without a
price, pass this check and are accepted (see the counterexample). -/
theorem claim_C2_amended (t : Nat) (book : Book) (m : InboundMessage)
    (h : m.cl_ord_id = none ∨ m.symbol = none ∨ m.side = none ∨
         m.ord_type = none ∨ m.order_qty = none) :
    ∃ reason, handle_new_order_single t book m =
      { book := book,
        outputs := [OutboundMessage.reject (send_reject m reason)],
        clock := t, observed := [] } := by
  obtain ⟨mt, c, sym, sd, ot, px, q⟩ := m
  rcases c with _ | c <;> rcases sym with _ | sym <;> rcases sd with _ | sd <;>
    rcases ot with _ | ot <;> rcases q with _ | q <;>
    first
      | exact ⟨"ClOrdID", rfl⟩
      | exact ⟨"Symbol", rfl⟩
      | exact ⟨"Side", rfl⟩
      | exact ⟨"OrdType", rfl⟩
      | exact ⟨"OrderQty", rfl⟩
      | simp_all

/-- Witness for the amended C2: Scenario B (the Scenario A request without
`order_qty`) gets exactly one reject and leaves the empty book empty. -/
theorem claim_C2_witness :
    ∃ reason, handle_new_order_single 0 [] msgNoQty =
      { book := [],
        outputs := [OutboundMessage.reject (send_reject msgNoQty reason)],
        clock := 0, observed := [] } :=
  claim_C2_amended 0 [] msgNoQty (by decide)

/-- Claim C3 counterexample: the claim is false on both of its clauses.  For
Scenario A the `New` report has `cum_qty = 0` but `avg_px = 150`, not `0`;
and for Scenario C (Market order, no price) the fill report has
`avg_px = 0` even though the order just filled for 50, so `avg_px` is not
the fill price of the trade. -/
theorem claim_C3_counterexample :
    ((execReports (handle_new_order_single 10 [] msgLimitA).outputs).map
        (fun r => (r.cum_qty, r.avg_px))) = [(0, 150), (100, 150)] ∧
    ((execReports (handle_new_order_single 0 [] msgMarketC).outputs).map
        (fun r => (r.cum_qty, r.avg_px))) = [(0, 0), (50, 0)] := by
  constructor <;> rfl

/-- Claim C3 as amended: `avg_px` does not track fills at all.  Every
execution report the engine emits carries `avg_px` equal to the value of
its own echoed `price` field (`0` when that field is absent); equivalently,
for an accepted request, every report's `avg_px` is the submitted price
when present and nonzero, and `0` otherwise — regardless of `cum_qty`.  In
particular the `New` report of a priced Limit order carries
`avg_px = price` despite `cum_qty = 0`, and the fill report of a Market
order with no submitted price carries `avg_px = 0`. -/
theorem claim_C3_amended :
    (∀ (clock : Nat) (book : Book) (msgs : List TimedMessage) (r : ExecutionReport),
      r ∈ execReports (runTrace clock book msgs).outputs →
      r.avg_px = r.price.getD 0) ∧
    (∀ (t : Nat) (book : Book) (m : InboundMessage) (f : NewOrderFields),
      read_new_order_fields m = Except.ok f →
      ∀ r ∈ execReports (handle_new_order_single t book m).outputs,
        r.avg_px = if pyTruthy f.price then f.price.getD 0 else 0) := by
  constructor
  · intro clock book msgs r h
    refine execReport_of_runTrace (fun r => r.avg_px = r.price.getD 0)
      ?_ msgs clock book r h
    intro t cl sym sd qty px
    constructor <;>
      · simp only [send_execution_report]
        cases px with
        | none => simp [pyTruthy]
        | some v => by_cases hv : v = 0 <;> simp [pyTruthy, hv]
  · intro t book m f hf r hr
    rw [handle_new_order_single, hf] at hr
    have hr' : r = send_execution_report t f.cl_ord_id f.symbol f.side
          f.order_qty f.price OrdStatus_NEW ExecType_NEW ∨
        r = send_execution_report (t + 1) f.cl_ord_id f.symbol f.side
          f.order_qty f.price OrdStatus_FILLED ExecType_TRADE := by
      simpa [execReports] using hr
    rcases hr' with h | h <;> subst h <;> rfl

/-- Witness for the amended C3: the `New` report of a concrete Scenario A
run satisfies both clauses. -/
theorem claim_C3_witness :
    ((send_execution_report 10 "ORDER_1" "ABC" '1' 100 (some 150)
        OrdStatus_NEW ExecType_NEW).avg_px
      = (send_execution_report 10 "ORDER_1" "ABC" '1' 100 (some 150)
        OrdStatus_NEW ExecType_NEW).price.getD 0) ∧
    ((send_execution_report 10 "ORDER_1" "ABC" '1' 100 (some 150)
        OrdStatus_NEW ExecType_NEW).avg_px
      = if pyTruthy (some 150) then (some (150 : Rat)).getD 0 else 0) :=
  ⟨claim_C3_amended.1 10 [] [⟨10, msgLimitA⟩] _ (by decide),
   claim_C3_amended.2 10 [] msgLimitA ⟨"ORDER_1", "ABC", '1', '2', some 150, 100⟩
     rfl _ (by decide)⟩

/-- Claim C4 counterexample: re-submitting `ORDER_1` after it reached the
terminal status `FILLED` moves the stored order back to `NEW`.  The four
successive order-book states observed while the engine processes the two
submissions show `ORDER_1` at `NEW`, `FILLED` (terminal), then `NEW` again
(the dict entry is silently overwritten), then `FILLED` — refuting both the
transition table (no `Filled → New` edge exists) and the claim that no
inbound message moves a stored order out of a terminal status. -/
theorem claim_C4_counterexample :
    ((runTrace 10 [] [⟨10, msgLimitA⟩, ⟨10, msgLimitA⟩]).observed.map
      (fun b => (b.lookup "ORDER_1").map OrderRecord.status)) =
    [some "NEW", some "FILLED", some "NEW", some "FILLED"] := by
  rfl

/-- Claim C4 as amended: within the handling of a single accepted new-order
message the stored order's status moves only `NEW → FILLED`; but terminal
statuses are not protected: a re-submission under the same
`client_order_id` silently overwrites the stored record, moving it from
the terminal `FILLED` back to `NEW` (see the counterexample). -/
theorem claim_C4_amended (t : Nat) (book : Book) (m : InboundMessage)
    (f : NewOrderFields) (hf : read_new_order_fields m = Except.ok f) :
    ((handle_new_order_single t book m).observed.map
      (fun b => (b.lookup f.cl_ord_id).map OrderRecord.status)) =
    [some "NEW", some "FILLED"] := by
  rw [handle_new_order_single, hf]
  simp [Book.lookup_set, Book.lookup_setStatus]

/-- Witness for the amended C4: a concrete Scenario A handling observes the
stored statuses `NEW` then `FILLED`. -/
theorem claim_C4_witness :
    ((handle_new_order_single 10 [] msgLimitA).observed.map
      (fun b => (b.lookup "ORDER_1").map OrderRecord.status)) =
    [some "NEW", some "FILLED"] :=
  claim_C4_amended 10 [] msgLimitA ⟨"ORDER_1", "ABC", '1', '2', some 150, 100⟩ rfl

/-- Claim C5: for every new-order request the engine accepts, the execution
reports emitted for that request are exactly a `New` report and then a
`Filled` report — an instance (with zero partial fills) of the required
shape `New`, then zero or more partial fills, then exactly one of
`Filled`/`Canceled`/`Rejected` — and each of these reports carries the
request's client order id. -/
theorem claim_C5_report_sequence (t : Nat) (book : Book) (m : InboundMessage)
    (f : NewOrderFields) (hf : read_new_order_fields m = Except.ok f) :
    lifecyclePattern ((execReports (handle_new_order_single t book m).outputs).map
      ExecutionReport.ord_status) ∧
    ∀ r ∈ execReports (handle_new_order_single t book m).outputs,
      r.cl_ord_id = f.cl_ord_id := by
  rw [handle_new_order_single, hf]
  constructor
  · exact ⟨0, OrdStatus_FILLED, Or.inl rfl, rfl⟩
  · intro r hr
    have hr' : r = send_execution_report t f.cl_ord_id f.symbol f.side
          f.order_qty f.price OrdStatus_NEW ExecType_NEW ∨
        r = send_execution_report (t + 1) f.cl_ord_id f.symbol f.side
          f.order_qty f.price OrdStatus_FILLED ExecType_TRADE := by
      simpa [execReports] using hr
    rcases hr' with h | h <;> subst h <;> rfl

/-- Witness for C5: a concrete Scenario A handling emits statuses matching
the lifecycle shape, with both reports for `ORDER_1`. -/
theorem claim_C5_witness :
    lifecyclePattern ((execReports (handle_new_order_single 10 [] msgLimitA).outputs).map
      ExecutionReport.ord_status) ∧
    ∀ r ∈ execReports (handle_new_order_single 10 [] msgLimitA).outputs,
      r.cl_ord_id = "ORDER_1" :=
  claim_C5_report_sequence 10 [] msgLimitA ⟨"ORDER_1", "ABC", '1', '2', some 150, 100⟩ rfl

/-- Claim C6 counterexample: `exec_id`s are not unique across one process
lifetime.  Submitting `ORDER_1` at clock 10 and re-submitting it as soon as
the first handling finishes (arrival 10, handled at clock 11) produces the
four exec ids `ORDER_1-10`, `ORDER_1-11`, `ORDER_1-11`, `ORDER_1-12`: the
first order's fill report and the second order's `New` report share
`ORDER_1-11`. -/
theorem claim_C6_counterexample :
    ((execReports (runTrace 10 [] [⟨10, msgLimitA⟩, ⟨10, msgLimitA⟩]).outputs).map
      ExecutionReport.exec_id) =
      ["ORDER_1-10", "ORDER_1-11", "ORDER_1-11", "ORDER_1-12"] ∧
    ¬ ((execReports (runTrace 10 [] [⟨10, msgLimitA⟩, ⟨10, msgLimitA⟩]).outputs).map
      ExecutionReport.exec_id).Nodup := by
  exact ⟨rfl, by decide⟩

/-- Claim C6 as amended: every report's `exec_id` is the pair of its client
order id and its sending second, rendered as `"<cl_ord_id>-<second>"`, and
this rendering is injective — so two reports share an `exec_id` only when
they carry the same `client_order_id` and the same integer-second
timestamp.  Reports for distinct client order ids therefore never collide;
uniqueness fails only across re-submissions of the same `client_order_id`
(a resubmission handled one second later reuses the previous fill's id,
see the counterexample). -/
theorem claim_C6_amended :
    (∀ (clock : Nat) (book : Book) (msgs : List TimedMessage) (r : ExecutionReport),
      r ∈ execReports (runTrace clock book msgs).outputs →
      r.exec_id = execIdOf r.cl_ord_id r.sending_time) ∧
    (∀ (cl cl' : String) (t t' : Nat),
      execIdOf cl t = execIdOf cl' t' → cl = cl' ∧ t = t') := by
  constructor
  · intro clock book msgs r h
    refine execReport_of_runTrace
      (fun r => r.exec_id = execIdOf r.cl_ord_id r.sending_time)
      ?_ msgs clock book r h
    intro t cl sym sd qty px
    exact ⟨rfl, rfl⟩
  · exact execIdOf_inj

/-- Witness for the amended C6: the concrete `New` report of a one-message
run has `exec_id = execIdOf "ORDER_1" 10`, and the injectivity clause
applied at concrete equal ids. -/
theorem claim_C6_witness :
    ((send_execution_report 10 "ORDER_1" "ABC" '1' 100 (some 150)
        OrdStatus_NEW ExecType_NEW).exec_id = execIdOf "ORDER_1" 10) ∧
    (("ORDER_1" : String) = "ORDER_1" ∧ (10 : Nat) = 10) :=
  ⟨claim_C6_amended.1 10 [] [⟨10, msgLimitA⟩] _ (by decide),
   claim_C6_amended.2 "ORDER_1" "ORDER_1" 10 10 rfl⟩

/-- Claim C7 counterexample: the claim is false for every report the engine
emits — line 121 of the source sets `OrderID` to the inbound `ClOrdID`
(its own comment: "Simplified: using ClOrdID as OrderID").  Concretely,
both Scenario A reports carry `order_id = "ORDER_1" = cl_ord_id`, the
counterparty's id, which the claim says never happens. -/
theorem claim_C7_counterexample :
    ((execReports (handle_new_order_single 10 [] msgLimitA).outputs).map
      (fun r => (r.order_id, r.cl_ord_id))) =
    [("ORDER_1", "ORDER_1"), ("ORDER_1", "ORDER_1")] := by
  rfl

/-- Claim C7 as amended: every execution report sets `order_id` equal to the
counterparty's `client_order_id`; the engine assigns no distinct
`broker_order_id`. -/
theorem claim_C7_amended (clock : Nat) (book : Book) (msgs : List TimedMessage)
    (r : ExecutionReport) (h : r ∈ execReports (runTrace clock book msgs).outputs) :
    r.order_id = r.cl_ord_id := by
  refine execReport_of_runTrace (fun r => r.order_id = r.cl_ord_id)
    ?_ msgs clock book r h
  intro t cl sym sd qty px
  exact ⟨rfl, rfl⟩

/-- Witness for the amended C7 at the concrete Scenario A `New` report. -/
theorem claim_C7_witness :
    (send_execution_report 10 "ORDER_1" "ABC" '1' 100 (some 150)
        OrdStatus_NEW ExecType_NEW).order_id =
    (send_execution_report 10 "ORDER_1" "ABC" '1' 100 (some 150)
        OrdStatus_NEW ExecType_NEW).cl_ord_id :=
  claim_C7_amended 10 [] [⟨10, msgLimitA⟩] _ (by decide)

/-- Claim C8 counterexample: the fill step blocks the routing thread.  Two
unrelated orders, `ORDER_1` and `ORDER_2`, both arrive at clock 10; yet
`ORDER_2`'s `New` report is stamped 11, not 10: its handling could not
start until `ORDER_1`'s handler returned from the one-second fill sleep,
refuting the claim that handling one new-order message never blocks the
handling of unrelated orders while waiting for the fill. -/
theorem claim_C8_counterexample :
    ((execReports (runTrace 10 [] [⟨10, msgLimitA⟩, ⟨10, msgMarketC⟩]).outputs).map
      (fun r => (r.cl_ord_id, r.sending_time))) =
    [("ORDER_1", 10), ("ORDER_1", 11), ("ORDER_2", 11), ("ORDER_2", 12)] := by
  rfl

/-- Claim C8 as amended: the execution-venue (fill-simulation) step is a
blocking sleep on the thread that routes inbound messages.  Handling an
accepted new-order message occupies the engine from its start `s` (the
later of the previous handling's end and the message's arrival) until
`s + 1`, and any next message — for an unrelated order or session — is
handled only from `s + 1` on: whenever it arrived by then, its own `New`
report is stamped exactly `s + 1`, the moment the first order's fill
completed. -/
theorem claim_C8_amended (clock : Nat) (book : Book) (a1 a2 : Nat)
    (m1 m2 : InboundMessage) (f1 f2 : NewOrderFields)
    (hm1 : m1.msg_type = MsgType_NewOrderSingle)
    (hm2 : m2.msg_type = MsgType_NewOrderSingle)
    (hf1 : read_new_order_fields m1 = Except.ok f1)
    (hf2 : read_new_order_fields m2 = Except.ok f2)
    (ha : a2 ≤ max clock a1 + 1) :
    ∃ r, (execReports (runTrace clock book [⟨a1, m1⟩, ⟨a2, m2⟩]).outputs).get? 2
        = some r ∧
      r.cl_ord_id = f2.cl_ord_id ∧ r.ord_status = OrdStatus_NEW ∧
      r.sending_time = max clock a1 + 1 := by
  have hmax : max (max clock a1 + 1) a2 = max clock a1 + 1 := Nat.max_eq_left ha
  simp only [runTrace, process_message, hm1, hm2, if_pos,
    handle_new_order_single, hf1, hf2, hmax]
  exact ⟨_, rfl, rfl, rfl, rfl⟩

/-- Witness for the amended C8: with both messages arriving at clock 10,
`ORDER_2`'s `New` report exists at position 2 and is stamped 11. -/
theorem claim_C8_witness :
    ∃ r, (execReports (runTrace 10 [] [⟨10, msgLimitA⟩, ⟨10, msgMarketC⟩]).outputs).get? 2
        = some r ∧
      r.cl_ord_id = "ORDER_2" ∧ r.ord_status = OrdStatus_NEW ∧
      r.sending_time = max 10 10 + 1 :=
  claim_C8_amended 10 [] 10 10 msgLimitA msgMarketC
    ⟨"ORDER_1", "ABC", '1', '2', some 150, 100⟩
    ⟨"ORDER_2", "XYZ", '1', '1', none, 50⟩
    rfl rfl rfl rfl (by decide)

/-- Claim C9 counterexample: the router silently drops every inbound
application message that is not a `NewOrderSingle`.  For a concrete
`OrderCancelRequest` (type `F`) no handler is dispatched (`routeTarget` is
`none` — the `if` in `process_message` has no `else` branch), the order
book is untouched and nothing is emitted, refuting the claim that such
messages are forwarded to a default handler rather than dropped. -/
theorem claim_C9_counterexample :
    msgCancel.msg_type ≠ MsgType_NewOrderSingle ∧
    routeTarget msgCancel = none ∧
    process_message 0 [] msgCancel =
      { book := [], outputs := [], clock := 0, observed := [] } := by
  exact ⟨by decide, rfl, rfl⟩

/-- Claim C9 as amended: the router dispatches only `NewOrderSingle`
messages.  Every inbound application message of any other business type is
silently ignored: no handler is invoked for it, the order book is returned
unchanged, and no outbound message is produced. -/
theorem claim_C9_amended (t : Nat) (book : Book) (m : InboundMessage)
    (h : m.msg_type ≠ MsgType_NewOrderSingle) :
    routeTarget m = none ∧
    process_message t book m =
      { book := book, outputs := [], clock := t, observed := [] } := by
  constructor
  · simp [routeTarget, h]
  · simp [process_message, h]

/-- Witness for the amended C9 at the concrete cancel request. -/
theorem claim_C9_witness :
    routeTarget msgCancel = none ∧
    process_message 7 [] msgCancel =
      { book := [], outputs := [], clock := 7, observed := [] } :=
  claim_C9_amended 7 [] msgCancel (by decide)

/-- Claim C10: every `NewOrderSingle` whose required fields all parse is
immediately and fully filled in one step.  The handler emits exactly two
execution reports — first one with status `New` (`cum_qty = 0`,
`leaves_qty = order_qty`), then one with status `Filled` reporting the full
`order_qty` filled (`leaves_qty = 0`) — both for the request's client order
id, and leaves the stored order's status at `FILLED`; moreover no report
any engine run ever emits carries a status other than `New` or `Filled`
(no `PartiallyFilled`, `Canceled`, `Rejected` or `DoneForDay` report is
ever produced). -/
theorem claim_C10_single_step_fill :
    (∀ (t : Nat) (book : Book) (m : InboundMessage) (f : NewOrderFields),
      read_new_order_fields m = Except.ok f →
      ∃ r1 r2,
        (handle_new_order_single t book m).outputs =
          [OutboundMessage.execReport r1, OutboundMessage.execReport r2] ∧
        r1.ord_status = OrdStatus_NEW ∧ r1.cl_ord_id = f.cl_ord_id ∧
        r1.cum_qty = 0 ∧ r1.leaves_qty = f.order_qty ∧
        r2.ord_status = OrdStatus_FILLED ∧ r2.cl_ord_id = f.cl_ord_id ∧
        r2.cum_qty = f.order_qty ∧ r2.leaves_qty = 0 ∧
        ((handle_new_order_single t book m).book.lookup f.cl_ord_id).map
          OrderRecord.status = some "FILLED") ∧
    (∀ (clock : Nat) (book : Book) (msgs : List TimedMessage) (r : ExecutionReport),
      r ∈ execReports (runTrace clock book msgs).outputs →
      r.ord_status = OrdStatus_NEW ∨ r.ord_status = OrdStatus_FILLED) := by
  constructor
  · intro t book m f hf
    refine ⟨send_execution_report t f.cl_ord_id f.symbol f.side f.order_qty
        f.price OrdStatus_NEW ExecType_NEW,
      send_execution_report (t + 1) f.cl_ord_id f.symbol f.side f.order_qty
        f.price OrdStatus_FILLED ExecType_TRADE,
      ?_, rfl, rfl, ?_, ?_, rfl, rfl, ?_, ?_, ?_⟩
    · rw [handle_new_order_single, hf]
    · simp [send_execution_report, OrdStatus_NEW, OrdStatus_FILLED]
    · simp [send_execution_report, OrdStatus_NEW, OrdStatus_FILLED]
    · simp [send_execution_report]
    · simp [send_execution_report]
    · rw [handle_new_order_single, hf]
      simp [Book.lookup_set, Book.lookup_setStatus]
  · intro clock book msgs r h
    refine execReport_of_runTrace
      (fun r => r.ord_status = OrdStatus_NEW ∨ r.ord_status = OrdStatus_FILLED)
      ?_ msgs clock book r h
    intro t cl sym sd qty px
    exact ⟨Or.inl rfl, Or.inr rfl⟩

/-- Witness for C10: the Scenario A handling concretely, and the status
clause at its `New` report. -/
theorem claim_C10_witness :
    (∃ r1 r2,
      (handle_new_order_single 10 [] msgLimitA).outputs =
        [OutboundMessage.execReport r1, OutboundMessage.execReport r2] ∧
      r1.ord_status = OrdStatus_NEW ∧ r1.cl_ord_id = "ORDER_1" ∧
      r1.cum_qty = 0 ∧ r1.leaves_qty = 100 ∧
      r2.ord_status = OrdStatus_FILLED ∧ r2.cl_ord_id = "ORDER_1" ∧
      r2.cum_qty = 100 ∧ r2.leaves_qty = 0 ∧
      ((handle_new_order_single 10 [] msgLimitA).book.lookup "ORDER_1").map
        OrderRecord.status = some "FILLED") ∧
    ((send_execution_report 10 "ORDER_1" "ABC" '1' 100 (some 150)
        OrdStatus_NEW ExecType_NEW).ord_status = OrdStatus_NEW ∨
     (send_execution_report 10 "ORDER_1" "ABC" '1' 100 (some 150)
        OrdStatus_NEW ExecType_NEW).ord_status = OrdStatus_FILLED) :=
  ⟨claim_C10_single_step_fill.1 10 [] msgLimitA
      ⟨"ORDER_1", "ABC", '1', '2', some 150, 100⟩ rfl,
   claim_C10_single_step_fill.2 10 [] [⟨10, msgLimitA⟩] _ (by decide)⟩

end BrokerEngine
